import Mathlib

/-!
Shallow embedding of the email-service delivery core of the notification
fabric (`services/email-service`): the delivery repository, the webhook
reconciler, the circuit breaker, the preference lookup, the retrying send
step and the queue consumer's per-message protocol.  UUIDs are modelled as
`Nat`, instants as `Nat` seconds, JSON/maps are elided where no claim
depends on them.  Statuses are plain strings, exactly as in the code
(`status = Column(String(50))`).
-/

namespace EmailService

/-- Python truthiness of an `Optional[str]`: `None` and `""` are falsy.
Mirrors checks such as `if error_message:` in
`EmailDeliveryRepository.update_status` and `if not preferences.email:` in
`EmailService.process_email_notification`. -/
def optTruthy : Option String → Bool
  | none => false
  | some s => !(s == "")

/-- One row of the `email_deliveries` table
(`app/models/email_delivery.py`, class `EmailDelivery`). -/
structure DeliveryRow where
  id : Nat
  notificationId : Nat
  userId : Nat
  recipientEmail : String
  subject : String
  bodyHtml : Option String
  bodyText : Option String
  status : String
  provider : String
  providerMessageId : Option String
  attemptCount : Nat
  maxAttempts : Nat
  sentAt : Option Nat
  deliveredAt : Option Nat
  failedAt : Option Nat
  errorMessage : Option String
  errorCode : Option String
  createdAt : Nat
  updatedAt : Nat
  deriving Repr, DecidableEq

/-- The database is the list of rows of `email_deliveries`, in insertion
order. -/
abbrev DeliveryDb := List DeliveryRow

/-- Fresh primary key for an inserted row: the model gives every new
`EmailDelivery` a fresh UUID (`default=uuid.uuid4`); we model freshness as
one more than the largest id in the table. -/
def nextId (db : DeliveryDb) : Nat :=
  (db.map (fun r => r.id)).foldr (fun a b => max a b) 0 + 1

/-- `EmailDeliveryRepository.create`: `session.add` + `flush` + `refresh` —
an unconditional INSERT of the new row, returning it.  There is no lookup
of an existing `(notification_id, channel)` row and no unique constraint on
`notification_id` in the model. -/
def create (db : DeliveryDb) (row : DeliveryRow) : DeliveryRow × DeliveryDb :=
  let r := { row with id := nextId db }
  (r, db ++ [r])

/-- `EmailDeliveryRepository.get_by_id`. -/
def get_by_id (db : DeliveryDb) (deliveryId : Nat) : Option DeliveryRow :=
  db.find? (fun r => r.id == deliveryId)

/-- `EmailDeliveryRepository.get_by_provider_message_id` (SQL equality on a
nullable column: NULL never matches). -/
def get_by_provider_message_id (db : DeliveryDb) (pmid : String) : Option DeliveryRow :=
  db.find? (fun r => r.providerMessageId == some pmid)

/-- The `VALUES` dict applied to a matching row by
`EmailDeliveryRepository.update_status`: always `status` and `updated_at`;
one of `sent_at` / `delivered_at` / `failed_at` chosen by the new status
(`if / elif / elif`); `error_message`, `error_code`,
`provider_message_id` only when the argument is truthy. -/
def updateRowValues (status : String) (errorMessage errorCode providerMessageId : Option String)
    (now : Nat) (r : DeliveryRow) : DeliveryRow :=
  { r with
    status := status
    updatedAt := now
    sentAt := if status == "sent" then some now else r.sentAt
    deliveredAt := if status == "delivered" then some now else r.deliveredAt
    failedAt := if status == "failed" then some now else r.failedAt
    errorMessage := if optTruthy errorMessage then errorMessage else r.errorMessage
    errorCode := if optTruthy errorCode then errorCode else r.errorCode
    providerMessageId := if optTruthy providerMessageId then providerMessageId else r.providerMessageId }

/-- `EmailDeliveryRepository.update_status`: UPDATE of every row whose `id`
matches, returning whether any row matched (`rowcount > 0`). -/
def update_status (db : DeliveryDb) (deliveryId : Nat) (status : String)
    (errorMessage errorCode providerMessageId : Option String) (now : Nat) :
    DeliveryDb × Bool :=
  (db.map (fun r =>
      if r.id == deliveryId then
        updateRowValues status errorMessage errorCode providerMessageId now r
      else r),
   db.any (fun r => r.id == deliveryId))

/-- `EmailDeliveryRepository.increment_attempt`. -/
def increment_attempt (db : DeliveryDb) (deliveryId : Nat) (now : Nat) :
    DeliveryDb × Bool :=
  (db.map (fun r =>
      if r.id == deliveryId then
        { r with attemptCount := r.attemptCount + 1, updatedAt := now }
      else r),
   db.any (fun r => r.id == deliveryId))

/-- Number of rows for one `notification_id` (the email service is the
`email` channel, so `(notification_id, channel)` is just
`notification_id` here). -/
def countByNotification (n : Nat) (db : DeliveryDb) : Nat :=
  (db.filter (fun r => r.notificationId == n)).length

/-! ## Circuit breaker (`app/utils/circuit_breaker.py`) -/

/-- `CircuitBreakerState`: `CLOSED` / `OPEN` / `HALF_OPEN` (`opened` stands
for the code's `OPEN`, which is a Lean keyword). -/
inductive CBState
  | closed
  | opened
  | halfOpen
  deriving Repr, DecidableEq

/-- In-process state of one `CircuitBreaker` instance. -/
structure CircuitBreaker where
  failureThreshold : Nat
  timeout : Nat
  failureCount : Nat
  lastFailureTime : Option Nat
  state : CBState
  deriving Repr, DecidableEq

/-- `CircuitBreaker.__init__` with its default parameters
(`failure_threshold=5`, `timeout=60`). -/
def CircuitBreaker.mkDefault : CircuitBreaker :=
  { failureThreshold := 5, timeout := 60, failureCount := 0,
    lastFailureTime := none, state := CBState.closed }

/-- `CircuitBreaker._should_attempt_reset`:
`utcnow() >= last_failure_time + timedelta(seconds=timeout)`. -/
def shouldAttemptReset (cb : CircuitBreaker) (now : Nat) : Bool :=
  match cb.lastFailureTime with
  | none => false
  | some t => decide (t + cb.timeout ≤ now)

/-- `CircuitBreaker._on_success`: reset the count and close. -/
def onSuccess (cb : CircuitBreaker) : CircuitBreaker :=
  { cb with failureCount := 0, state := CBState.closed }

/-- `CircuitBreaker._on_failure`: bump the count, stamp the failure time,
open once the threshold is reached. -/
def onFailure (cb : CircuitBreaker) (now : Nat) : CircuitBreaker :=
  { cb with
    failureCount := cb.failureCount + 1
    lastFailureTime := some now
    state := if cb.failureThreshold ≤ cb.failureCount + 1 then CBState.opened else cb.state }

/-- Result of one `call_async`: either the dedicated `CircuitBreakerError`
was raised without invoking the protected function, or the function ran
(and either returned or raised, which the breaker re-raises). -/
inductive CallOutcome
  | raisedOpen
  | ran (success : Bool)
  deriving Repr, DecidableEq

/-- `CircuitBreaker.call_async`.  `funcSucceeds` abstracts whether the
protected coroutine returns normally (`_on_success`) or raises
(`_on_failure` and re-raise). -/
def callAsync (cb : CircuitBreaker) (now : Nat) (funcSucceeds : Bool) :
    CallOutcome × CircuitBreaker :=
  if cb.state = CBState.opened then
    if shouldAttemptReset cb now then
      let cb1 := { cb with state := CBState.halfOpen }
      if funcSucceeds then (CallOutcome.ran true, onSuccess cb1)
      else (CallOutcome.ran false, onFailure cb1 now)
    else (CallOutcome.raisedOpen, cb)
  else
    if funcSucceeds then (CallOutcome.ran true, onSuccess cb)
    else (CallOutcome.ran false, onFailure cb now)

/-- Reachability invariant of a breaker: whenever it is open, the failure
count has reached the threshold and a failure time is recorded.  Holds for
a freshly constructed breaker and is preserved by `callAsync`. -/
def BreakerInv (cb : CircuitBreaker) : Prop :=
  cb.state = CBState.opened →
    cb.failureThreshold ≤ cb.failureCount ∧ cb.lastFailureTime ≠ none

/-! ## Gateway status reporting (`EmailService._update_gateway_status`) -/

/-- The `status_mapping` dict of `_update_gateway_status`, with its
`.get(status, "pending")` default. -/
def gatewayStatusMap (status : String) : String :=
  if status == "sent" then "delivered"
  else if status == "delivered" then "delivered"
  else if status == "failed" then "failed"
  else if status == "pending" then "pending"
  else if status == "skipped" then "pending"
  else if status == "bounced" then "failed"
  else "pending"

/-- One PATCH sent to the notification gateway
(`NotificationStatusUpdate` for channel `email`, after the internal →
external mapping). -/
structure GatewayCall where
  notificationId : Nat
  status : String
  providerMessageId : Option String
  errorMessage : Option String
  deriving Repr, DecidableEq

/-- `EmailService._update_gateway_status`: build the PATCH payload with the
mapped status. -/
def updateGatewayStatus (nid : Nat) (status : String) (pmid : Option String)
    (err : Option String) : GatewayCall :=
  { notificationId := nid, status := gatewayStatusMap status,
    providerMessageId := pmid, errorMessage := err }

/-! ## Webhook reconciler (`EmailService.handle_webhook` and
`app/api/v1/routes/webhooks.py`) -/

/-- The `status_mapping` dict of `handle_webhook`, with its
`.get(event, "pending")` default: any event name outside the table maps to
`"pending"`. -/
def webhookEventStatus (event : String) : String :=
  if event == "delivered" then "delivered"
  else if event == "bounce" then "bounced"
  else if event == "dropped" then "failed"
  else if event == "deferred" then "pending"
  else "pending"

/-- `EmailService.handle_webhook`: look the delivery up by
`provider_message_id`; when absent return `False`; otherwise apply
`update_status` with the mapped status — unconditionally, with no check of
the current status — and report to the gateway. -/
def handle_webhook (db : DeliveryDb) (pmid : String) (event : String) (now : Nat) :
    Bool × DeliveryDb × List GatewayCall :=
  match get_by_provider_message_id db pmid with
  | none => (false, db, [])
  | some delivery =>
    let newStatus := webhookEventStatus event
    let db1 := (update_status db delivery.id newStatus none none none now).1
    (true, db1, [updateGatewayStatus delivery.notificationId newStatus (some pmid) none])

/-- One event of the webhook batch (`SendGridWebhook` schema). -/
structure WebhookEvent where
  email : String
  event : String
  timestamp : Nat
  sgMessageId : String
  deriving Repr, DecidableEq

/-- The response body of the webhook route (`WebhookResponse` schema in
`app/schemas/webhook.py`): two booleans and a message string. -/
structure WebhookResponse where
  received : Bool
  processed : Bool
  message : String
  deriving Repr, DecidableEq

/-- One iteration of the per-event loop of the `email_webhook` route:
run `handle_webhook` and bump `processed_count` when it returned `True`.
Per-event exceptions are caught and counted as not processed;
`handle_webhook` itself returns `False` rather than raising. -/
def webhookBatchStep (now : Nat) (acc : Nat × DeliveryDb) (e : WebhookEvent) :
    Nat × DeliveryDb :=
  let r := handle_webhook acc.2 e.sgMessageId e.event now
  (acc.1 + (if r.1 then 1 else 0), r.2.1)

/-- The whole per-event loop of the `email_webhook` route: count of events
for which `handle_webhook` returned `True`, and the resulting database. -/
def webhookBatchRun (events : List WebhookEvent) (db : DeliveryDb) (now : Nat) :
    Nat × DeliveryDb :=
  events.foldl (webhookBatchStep now) (0, db)

/-- The `email_webhook` route: HTTP status and `WebhookResponse` body.
`received` is the literal `True`; `processed` is
`processed_count == len(events)`; the counts appear only inside the
`message` string. -/
def email_webhook (events : List WebhookEvent) (db : DeliveryDb) (now : Nat) :
    Nat × WebhookResponse × DeliveryDb :=
  let run := webhookBatchRun events db now
  (200,
   { received := true,
     processed := run.1 == events.length,
     message := "Processed " ++ toString run.1 ++ " out of " ++ toString events.length ++ " events" },
   run.2)

/-! ## Send step with retry (`EmailService._send_email_with_retry`) -/

/-- `MAX_RETRY_ATTEMPTS` from `app/config.py`. -/
def MAX_RETRY_ATTEMPTS : Nat := 3

/-- Environment outcome of one attempt of the send step, as observed inside
`_send_email_with_retry`: the breaker raised `CircuitBreakerError` (the
provider is never invoked), or the provider was invoked and returned a
`SendResult` — `success mid` or an unsuccessful result carrying an error
string (providers never raise; every failure mode, 4xx and 5xx and
timeouts alike, is normalized into `SendResult(success=False)` by
`SMTPProvider.send` / `SendGridProvider.send`). -/
inductive SendAttemptOutcome
  | success (messageId : String)
  | providerError (err : String)
  | breakerOpen
  deriving Repr, DecidableEq

/-- What `_send_email_with_retry` produces for its caller: a normal return
(`True` on success, `False` when the breaker was open), or the
`RetryError` tenacity raises once `stop_after_attempt` is hit
(`reraise=False`). -/
inductive RetryOutcome
  | returned (b : Bool)
  | retryError
  deriving Repr, DecidableEq

/-- State after the send step: the outcome, the database, how many times
the provider's `send` was invoked, how many times
`repository.increment_attempt` ran, and the gateway PATCHes issued. -/
structure SendPhaseResult where
  outcome : RetryOutcome
  db : DeliveryDb
  providerCalls : Nat
  increments : Nat
  gateway : List GatewayCall
  deriving Repr, DecidableEq

/-- One tenacity-retried execution of `_send_email_with_retry`, driven by
the per-attempt environment `outcomes` (attempt index `ix`).  Each attempt
first persists `increment_attempt`; a `CircuitBreakerError` is caught and
returns `False` (no retry); a successful `SendResult` updates the row to
`sent` and PATCHes the gateway; an unsuccessful one updates the row to
`failed` and raises, which tenacity retries while attempts remain
(`fuel`), regardless of the kind of provider error — the decorator has no
`retry=` predicate, so every exception is retried. -/
def sendAttempts (outcomes : Nat → SendAttemptOutcome) (deliveryId : Nat) (now : Nat)
    (ix : Nat) (fuel : Nat) (db : DeliveryDb) : SendPhaseResult :=
  match fuel with
  | 0 => { outcome := RetryOutcome.retryError, db := db, providerCalls := 0,
           increments := 0, gateway := [] }
  | fuel' + 1 =>
    let db1 := (increment_attempt db deliveryId now).1
    match outcomes ix with
    | SendAttemptOutcome.breakerOpen =>
      let db2 := (update_status db1 deliveryId "failed"
        (some "Email provider unavailable (circuit breaker open)") none none now).1
      { outcome := RetryOutcome.returned false, db := db2, providerCalls := 0,
        increments := 1, gateway := [] }
    | SendAttemptOutcome.success mid =>
      let db2 := (update_status db1 deliveryId "sent" none none (some mid) now).1
      let gw :=
        match get_by_id db2 deliveryId with
        | some d => [updateGatewayStatus d.notificationId "sent" (some mid) none]
        | none => []
      { outcome := RetryOutcome.returned true, db := db2, providerCalls := 1,
        increments := 1, gateway := gw }
    | SendAttemptOutcome.providerError err =>
      let db2 := (update_status db1 deliveryId "failed" (some err) none none now).1
      let rest := sendAttempts outcomes deliveryId now (ix + 1) fuel' db2
      { outcome := rest.outcome, db := rest.db,
        providerCalls := 1 + rest.providerCalls,
        increments := 1 + rest.increments, gateway := rest.gateway }

/-- `_send_email_with_retry` under
`@retry(stop=stop_after_attempt(maxAttempts), ..., reraise=False)`. -/
def sendEmailWithRetry (outcomes : Nat → SendAttemptOutcome) (deliveryId : Nat)
    (now : Nat) (maxAttempts : Nat) (db : DeliveryDb) : SendPhaseResult :=
  sendAttempts outcomes deliveryId now 0 maxAttempts db

/-! ## Delivery orchestrator (`EmailService.process_email_notification`) -/

/-- `UserPreferences` schema (`app/schemas/email.py`): `email` defaults to
`None`. -/
structure UserPreferences where
  emailEnabled : Bool
  pushEnabled : Bool
  email : Option String
  deriving Repr, DecidableEq

/-- `TemplateRenderResponse` schema. -/
structure RenderedTemplate where
  subject : String
  bodyHtml : Option String
  bodyText : Option String
  deriving Repr, DecidableEq

/-- The fields of `QueueMessage` the pipeline reads. -/
structure QueueMessage where
  notificationId : Nat
  userId : Nat
  templateId : Nat
  deriving Repr, DecidableEq

/-- The `EmailDelivery(...)` constructor call of step 4 of
`process_email_notification`: a fresh `pending` row for the job (the `id`
placed here is replaced by a fresh one inside `create`). -/
def newDeliveryRow (msg : QueueMessage) (prefs : UserPreferences)
    (rend : RenderedTemplate) (providerName : String) (now : Nat) : DeliveryRow :=
  { id := 0, notificationId := msg.notificationId, userId := msg.userId,
    recipientEmail := prefs.email.getD "", subject := rend.subject,
    bodyHtml := rend.bodyHtml, bodyText := rend.bodyText,
    status := "pending", provider := providerName,
    providerMessageId := none, attemptCount := 0, maxAttempts := 3,
    sentAt := none, deliveredAt := none, failedAt := none,
    errorMessage := none, errorCode := none,
    createdAt := now, updatedAt := now }

/-- Result of one run of `process_email_notification`: the boolean the
handler returns, the database, and the gateway PATCHes issued (in
order). -/
structure PipelineResult where
  ok : Bool
  db : DeliveryDb
  gateway : List GatewayCall
  deriving Repr, DecidableEq

/-- `EmailService.process_email_notification`, with the external calls
abstracted into oracle arguments: `preferences` is what
`api_client.get_user_preferences` returned, `rendered` what
`render_template` returned, `sendOutcomes` drives the attempts of the send
step.  The branch structure follows the code exactly: missing preferences
→ gateway `failed` and `False`; `email_enabled` false → gateway `skipped`
and `True`; falsy `preferences.email` → gateway `failed` and `False` (no
delivery row is created and no `error_code` is recorded in any of these
branches); render failure → gateway `failed` and `False`; otherwise create
the `pending` row and run the send step.  A `RetryError` escaping the send
step is caught by the outer `except Exception` which PATCHes the gateway
with `failed` and returns `False`. -/
def process_email_notification (msg : QueueMessage)
    (preferences : Option UserPreferences)
    (rendered : Option RenderedTemplate)
    (providerName : String)
    (sendOutcomes : Nat → SendAttemptOutcome)
    (maxAttempts : Nat) (now : Nat)
    (db : DeliveryDb) : PipelineResult :=
  match preferences with
  | none =>
    { ok := false, db := db,
      gateway := [updateGatewayStatus msg.notificationId "failed" none
        (some "User preferences not found")] }
  | some prefs =>
    if !prefs.emailEnabled then
      { ok := true, db := db,
        gateway := [updateGatewayStatus msg.notificationId "skipped" none
          (some "Email notifications disabled for user")] }
    else if !optTruthy prefs.email then
      { ok := false, db := db,
        gateway := [updateGatewayStatus msg.notificationId "failed" none
          (some "User email address not found")] }
    else
      match rendered with
      | none =>
        { ok := false, db := db,
          gateway := [updateGatewayStatus msg.notificationId "failed" none
            (some "Template rendering failed")] }
      | some rend =>
        let created := create db (newDeliveryRow msg prefs rend providerName now)
        let sres := sendEmailWithRetry sendOutcomes created.1.id now maxAttempts created.2
        match sres.outcome with
        | RetryOutcome.returned b =>
          { ok := b, db := sres.db, gateway := sres.gateway }
        | RetryOutcome.retryError =>
          { ok := false, db := sres.db,
            gateway := sres.gateway ++
              [updateGatewayStatus msg.notificationId "failed" none (some "RetryError")] }

/-- `n` consecutive deliveries of the same job (same oracle responses):
the broker redelivering the message `k` times makes the consumer run the
pipeline `k` times on the evolving database. -/
def iteratePipeline (msg : QueueMessage) (preferences : Option UserPreferences)
    (rendered : Option RenderedTemplate) (providerName : String)
    (sendOutcomes : Nat → SendAttemptOutcome) (maxAttempts : Nat) (now : Nat) :
    Nat → DeliveryDb → DeliveryDb
  | 0, db => db
  | k + 1, db =>
    iteratePipeline msg preferences rendered providerName sendOutcomes maxAttempts now k
      (process_email_notification msg preferences rendered providerName sendOutcomes
        maxAttempts now db).db

/-! ## Queue consumer (`EmailConsumer._process_message`) -/

/-- What the broker does with the message when the `message.process()`
context exits: `ack` on clean exit, `reject requeue` when an exception
escapes (aio-pika's `IncomingMessage.process()` is called with no
arguments, so its `requeue` parameter keeps its default `False`). -/
inductive BrokerAction
  | ack
  | reject (requeue : Bool)
  deriving Repr, DecidableEq

/-- Shape of the incoming body after the two decode stages:
`json.loads` fails, or the JSON is valid but `QueueMessage(**body)` raises
a validation error, or a valid job. -/
inductive MessageBody
  | invalidJson
  | invalidSchema
  | valid (msg : QueueMessage)
  deriving Repr, DecidableEq

/-- `EmailConsumer._process_message`: a `json.JSONDecodeError` is caught
and swallowed, so the context manager acks and the message is dropped; a
validation error or a `False` from the handler raises out of the `try`,
and `message.process()` rejects with `requeue=False`. -/
def process_message (body : MessageBody) (handlerOk : QueueMessage → Bool) :
    BrokerAction :=
  match body with
  | MessageBody.invalidJson => BrokerAction.ack
  | MessageBody.invalidSchema => BrokerAction.reject false
  | MessageBody.valid msg =>
    if handlerOk msg then BrokerAction.ack else BrokerAction.reject false

/-! ## Preference lookup (`ExternalAPIClient.get_user_preferences`) -/

/-- Outcome of the inner `fetch_preferences` HTTP call when it is actually
invoked: a successful envelope with data, a response without usable data
(`success` false or no `data`), or a raised `HTTPStatusError`.  The
transport-level tenacity retry around the whole method only re-invokes it
on timeouts/network errors and is abstracted into this single observed
outcome. -/
inductive FetchOutcome
  | ok (prefs : UserPreferences)
  | noData
  | httpError
  deriving Repr, DecidableEq

/-- The user-preference cache: key/value store of decoded snapshots.  The
stored JSON dict always carries the two required boolean fields, so a hit
is always truthy in `if cached_prefs:`. -/
abbrev PrefCache := List (String × UserPreferences)

/-- The cache key `f"user_prefs:{user_id}"`. -/
def prefCacheKey (userId : Nat) : String :=
  "user_prefs:" ++ toString userId

/-- Result of `get_user_preferences`: the returned value, the user-service
breaker afterwards, the cache afterwards, and how many HTTP requests were
made to the user service. -/
structure PrefsLookupResult where
  result : Option UserPreferences
  breaker : CircuitBreaker
  cache : PrefCache
  httpCalls : Nat
  deriving Repr, DecidableEq

/-- `ExternalAPIClient.get_user_preferences`: cache first (a hit returns
immediately, touching neither the breaker nor the network); otherwise
`user_service_breaker.call_async(fetch_preferences)` — a
`CircuitBreakerError` yields the conservative default
`UserPreferences(email_enabled=True, push_enabled=True)`; a successful
fetch with data caches and returns it; no data or an HTTP error yields
`None`. -/
def get_user_preferences (userId : Nat) (cacheStore : PrefCache)
    (breaker : CircuitBreaker) (now : Nat) (fetch : FetchOutcome) :
    PrefsLookupResult :=
  let key := prefCacheKey userId
  match cacheStore.find? (fun kv => kv.1 == key) with
  | some kv =>
    { result := some kv.2, breaker := breaker, cache := cacheStore, httpCalls := 0 }
  | none =>
    if breaker.state = CBState.opened ∧ ¬ (shouldAttemptReset breaker now = true) then
      { result := some { emailEnabled := true, pushEnabled := true, email := none },
        breaker := breaker, cache := cacheStore, httpCalls := 0 }
    else
      let entered := if breaker.state = CBState.opened then
        { breaker with state := CBState.halfOpen } else breaker
      match fetch with
      | FetchOutcome.ok p =>
        { result := some p, breaker := onSuccess entered,
          cache := cacheStore ++ [(key, p)], httpCalls := 1 }
      | FetchOutcome.noData =>
        { result := none, breaker := onSuccess entered,
          cache := cacheStore, httpCalls := 1 }
      | FetchOutcome.httpError =>
        { result := none, breaker := onFailure entered now,
          cache := cacheStore, httpCalls := 1 }

/-! ## Concrete fixtures used by the closed theorems below -/

/-- A delivered (terminal) row with provider message id `M5`, as in the
webhook seed scenario. -/
def rowDelivered : DeliveryRow :=
  { id := 1, notificationId := 10, userId := 20, recipientEmail := "ada@x",
    subject := "Hi", bodyHtml := none, bodyText := some "b",
    status := "delivered", provider := "smtp", providerMessageId := some "M5",
    attemptCount := 1, maxAttempts := 3, sentAt := some 5, deliveredAt := some 6,
    failedAt := none, errorMessage := none, errorCode := none,
    createdAt := 1, updatedAt := 6 }

/-- A happy-path queue message. -/
def msgHappy : QueueMessage := { notificationId := 1, userId := 2, templateId := 3 }

/-- Preferences with email enabled and an address present. -/
def prefsWithAddr : UserPreferences :=
  { emailEnabled := true, pushEnabled := true, email := some "ada@x" }

/-- Preferences with email enabled but no address (`email=null`). -/
def prefsNoAddr : UserPreferences :=
  { emailEnabled := true, pushEnabled := true, email := none }

/-- A rendered template. -/
def rendHappy : RenderedTemplate :=
  { subject := "Hi Ada", bodyHtml := none, bodyText := some "body" }

/-- A second rendered template, used by the missing-address scenario. -/
def rendPlain : RenderedTemplate :=
  { subject := "Hello", bodyHtml := some "<p>h</p>", bodyText := none }

/-- A pending row for the send-step scenarios. -/
def rowPending : DeliveryRow :=
  { id := 1, notificationId := 1, userId := 2, recipientEmail := "ada@x",
    subject := "Hi Ada", bodyHtml := none, bodyText := some "body",
    status := "pending", provider := "sendgrid", providerMessageId := none,
    attemptCount := 0, maxAttempts := 3, sentAt := none, deliveredAt := none,
    failedAt := none, errorMessage := none, errorCode := none,
    createdAt := 0, updatedAt := 0 }

/-- A webhook event whose `sg_message_id` matches no row of the empty
database. -/
def evStray : WebhookEvent :=
  { email := "ada@x", event := "delivered", timestamp := 3, sgMessageId := "ZZZ" }

/-- An open user-service breaker inside its open window at `now = 130`
(opened at 100 with the default 60s timeout). -/
def openBreaker : CircuitBreaker :=
  { failureThreshold := 5, timeout := 60, failureCount := 5,
    lastFailureTime := some 100, state := CBState.opened }

/-! ## Theorems -/

/-- An `Optional[str]` argument is falsy exactly when it is absent or the
empty string. -/
theorem optTruthy_eq_false (o : Option String) :
    optTruthy o = false ↔ (o = none ∨ o = some "") := by
  cases o with
  | none => simp [optTruthy]
  | some s => simp [optTruthy]

/-- C9: `EmailDeliveryRepository.update_status` writes `status` and
`updated_at`, at most one of `sent_at`/`delivered_at`/`failed_at` (chosen
by the new status), and each of `error_message`/`error_code`/
`provider_message_id` only when the argument is truthy — a `None` or
empty-string argument leaves the stored column unchanged, so a falsy
`provider_message_id` never clears a stored id; every other column of the
row, and every row with a different id, is untouched. -/
theorem update_status_frame (status : String) (em ec pmid : Option String)
    (now : Nat) (r : DeliveryRow) (db : DeliveryDb) (did : Nat) :
    ((updateRowValues status em ec pmid now r).status = status
      ∧ (updateRowValues status em ec pmid now r).updatedAt = now)
    ∧ ((em = none ∨ em = some "") →
        (updateRowValues status em ec pmid now r).errorMessage = r.errorMessage)
    ∧ ((ec = none ∨ ec = some "") →
        (updateRowValues status em ec pmid now r).errorCode = r.errorCode)
    ∧ ((pmid = none ∨ pmid = some "") →
        (updateRowValues status em ec pmid now r).providerMessageId = r.providerMessageId)
    ∧ (∀ s, em = some s → ¬ s = "" →
        (updateRowValues status em ec pmid now r).errorMessage = some s)
    ∧ (∀ s, ec = some s → ¬ s = "" →
        (updateRowValues status em ec pmid now r).errorCode = some s)
    ∧ (∀ s, pmid = some s → ¬ s = "" →
        (updateRowValues status em ec pmid now r).providerMessageId = some s)
    ∧ ((updateRowValues status em ec pmid now r).sentAt
        = if status == "sent" then some now else r.sentAt)
    ∧ ((updateRowValues status em ec pmid now r).deliveredAt
        = if status == "delivered" then some now else r.deliveredAt)
    ∧ ((updateRowValues status em ec pmid now r).failedAt
        = if status == "failed" then some now else r.failedAt)
    ∧ ((updateRowValues status em ec pmid now r).id = r.id
      ∧ (updateRowValues status em ec pmid now r).notificationId = r.notificationId
      ∧ (updateRowValues status em ec pmid now r).userId = r.userId
      ∧ (updateRowValues status em ec pmid now r).recipientEmail = r.recipientEmail
      ∧ (updateRowValues status em ec pmid now r).subject = r.subject
      ∧ (updateRowValues status em ec pmid now r).bodyHtml = r.bodyHtml
      ∧ (updateRowValues status em ec pmid now r).bodyText = r.bodyText
      ∧ (updateRowValues status em ec pmid now r).provider = r.provider
      ∧ (updateRowValues status em ec pmid now r).attemptCount = r.attemptCount
      ∧ (updateRowValues status em ec pmid now r).maxAttempts = r.maxAttempts
      ∧ (updateRowValues status em ec pmid now r).createdAt = r.createdAt)
    ∧ (∀ r₀ ∈ db, ¬ r₀.id = did →
        r₀ ∈ (update_status db did status em ec pmid now).1)
    ∧ (∀ r₀ ∈ db, r₀.id = did →
        updateRowValues status em ec pmid now r₀ ∈ (update_status db did status em ec pmid now).1) := by
  refine ⟨⟨rfl, rfl⟩, ?_, ?_, ?_, ?_, ?_, ?_, rfl, rfl, rfl,
    ⟨rfl, rfl, rfl, rfl, rfl, rfl, rfl, rfl, rfl, rfl, rfl⟩, ?_, ?_⟩
  · intro h
    have hf : optTruthy em = false := (optTruthy_eq_false em).mpr h
    simp [updateRowValues, hf]
  · intro h
    have hf : optTruthy ec = false := (optTruthy_eq_false ec).mpr h
    simp [updateRowValues, hf]
  · intro h
    have hf : optTruthy pmid = false := (optTruthy_eq_false pmid).mpr h
    simp [updateRowValues, hf]
  · intro s hs hne
    subst hs
    simp [updateRowValues, optTruthy, hne]
  · intro s hs hne
    subst hs
    simp [updateRowValues, optTruthy, hne]
  · intro s hs hne
    subst hs
    simp [updateRowValues, optTruthy, hne]
  · intro r₀ hmem hne
    unfold update_status
    exact List.mem_map.mpr ⟨r₀, hmem, by simp [hne]⟩
  · intro r₀ hmem hid
    unfold update_status
    exact List.mem_map.mpr ⟨r₀, hmem, by simp [hid]⟩

/-- Witness for C9: on a concrete row, a `None` error message and an
empty-string provider message id leave both stored columns unchanged. -/
theorem update_status_frame_witness :
    (updateRowValues "sent" none (some "E") (some "") 42 rowDelivered).errorMessage
        = rowDelivered.errorMessage
    ∧ (updateRowValues "sent" none (some "E") (some "") 42 rowDelivered).providerMessageId
        = rowDelivered.providerMessageId :=
  ⟨(update_status_frame "sent" none (some "E") (some "") 42 rowDelivered [] 0).2.1
      (Or.inl rfl),
   (update_status_frame "sent" none (some "E") (some "") 42 rowDelivered [] 0).2.2.2.1
      (Or.inr rfl)⟩

/-- C10: a cache hit makes `get_user_preferences` return the cached
snapshot at once — the user-service breaker (whatever its state, open
included) and the cache are untouched and no HTTP request is made. -/
theorem get_user_preferences_cache_hit (userId : Nat) (cacheStore : PrefCache)
    (breaker : CircuitBreaker) (now : Nat) (fetch : FetchOutcome)
    (kv : String × UserPreferences)
    (h : cacheStore.find? (fun e => e.1 == prefCacheKey userId) = some kv) :
    get_user_preferences userId cacheStore breaker now fetch =
      { result := some kv.2, breaker := breaker, cache := cacheStore, httpCalls := 0 } := by
  unfold get_user_preferences
  simp only [h]

/-- Witness for C10: a concrete store holding user 7's preferences is
served directly even though the breaker is open and the fetch would fail. -/
theorem get_user_preferences_cache_hit_witness :
    get_user_preferences 7 [(prefCacheKey 7, prefsWithAddr)] openBreaker 130
        FetchOutcome.httpError =
      { result := some prefsWithAddr, breaker := openBreaker,
        cache := [(prefCacheKey 7, prefsWithAddr)], httpCalls := 0 } :=
  get_user_preferences_cache_hit 7 [(prefCacheKey 7, prefsWithAddr)] openBreaker 130
    FetchOutcome.httpError (prefCacheKey 7, prefsWithAddr) (by decide)

/-- C6: the breaker is the three-state machine of the spec: defaults are
`failure_threshold=5`, `open_timeout=60`; in `closed` a failure increments
the count and reaching the threshold opens the breaker (a success resets
the count, making the counted failures consecutive); while `open` and
strictly inside the open window every call raises the dedicated
circuit-open error without invoking the protected function and without
touching the state; once the timeout has elapsed the next call runs as a
half-open probe — success returns to `closed` with the count reset,
failure returns to `open` stamped at `now`; and the invariant backing the
probe-failure case is preserved by every call. -/
theorem circuit_breaker_machine (cb : CircuitBreaker) (now t : Nat) :
    (CircuitBreaker.mkDefault.failureThreshold = 5 ∧ CircuitBreaker.mkDefault.timeout = 60)
    ∧ (cb.state = CBState.closed →
        callAsync cb now false =
          (CallOutcome.ran false,
           { cb with
             failureCount := cb.failureCount + 1
             lastFailureTime := some now
             state := (if cb.failureThreshold ≤ cb.failureCount + 1 then CBState.opened
                       else CBState.closed) }))
    ∧ (cb.state = CBState.closed →
        callAsync cb now true =
          (CallOutcome.ran true, { cb with failureCount := 0, state := CBState.closed }))
    ∧ (cb.state = CBState.opened → cb.lastFailureTime = some t → now < t + cb.timeout →
        ∀ b, callAsync cb now b = (CallOutcome.raisedOpen, cb))
    ∧ (cb.state = CBState.opened → cb.lastFailureTime = some t → t + cb.timeout ≤ now →
        callAsync cb now true =
          (CallOutcome.ran true, { cb with state := CBState.closed, failureCount := 0 }))
    ∧ (cb.state = CBState.opened → cb.lastFailureTime = some t → t + cb.timeout ≤ now →
        cb.failureThreshold ≤ cb.failureCount →
        callAsync cb now false =
          (CallOutcome.ran false,
           { cb with
             state := CBState.opened
             failureCount := cb.failureCount + 1
             lastFailureTime := some now }))
    ∧ (BreakerInv cb → ∀ b, BreakerInv (callAsync cb now b).2) := by
  refine ⟨⟨rfl, rfl⟩, ?_, ?_, ?_, ?_, ?_, ?_⟩
  · intro h
    simp [callAsync, onFailure, h]
  · intro h
    simp [callAsync, onSuccess, h]
  · intro h1 h2 h3 b
    have h4 : ¬ (t + cb.timeout ≤ now) := by omega
    simp [callAsync, shouldAttemptReset, h1, h2, h4]
  · intro h1 h2 h3
    simp [callAsync, shouldAttemptReset, onSuccess, h1, h2, h3]
  · intro h1 h2 h3 hth
    have hth1 : cb.failureThreshold ≤ cb.failureCount + 1 := Nat.le_succ_of_le hth
    simp [callAsync, shouldAttemptReset, onFailure, h1, h2, h3, hth1]
  · intro hinv b
    by_cases hs : cb.state = CBState.opened
    · by_cases hr : shouldAttemptReset cb now = true
      · cases b with
        | false =>
          by_cases hth : cb.failureThreshold ≤ cb.failureCount + 1
          · simp [callAsync, hs, hr, onFailure, BreakerInv, hth]
          · simp [callAsync, hs, hr, onFailure, BreakerInv, hth]
        | true => simp [callAsync, hs, hr, onSuccess, BreakerInv]
      · simpa [callAsync, hs, hr] using hinv
    · cases b with
      | false =>
        by_cases hth : cb.failureThreshold ≤ cb.failureCount + 1
        · simp [callAsync, hs, onFailure, BreakerInv, hth]
        · simp [callAsync, hs, onFailure, BreakerInv, hth]
      | true => simp [callAsync, hs, onSuccess, BreakerInv]

/-- Witness for C6: the concrete open breaker (opened at 100, timeout 60)
fails fast at `now = 130` without running the protected function. -/
theorem circuit_breaker_machine_witness :
    callAsync openBreaker 130 true = (CallOutcome.raisedOpen, openBreaker) :=
  (circuit_breaker_machine openBreaker 130 100).2.2.2.1 rfl rfl (by decide) true

/-- C7: with no cached snapshot and the user-service breaker open (inside
its open window), `get_user_preferences` returns the conservative default
`{email_enabled: true, push_enabled: true}` with no address instead of
failing — no HTTP call, breaker untouched — and running the pipeline on a
job under that default, which carries no address, ends with `failed`
reported to the gateway and the handler returning failure. -/
theorem breaker_open_default_prefs (userId : Nat) (cacheStore : PrefCache)
    (breaker : CircuitBreaker) (now : Nat) (fetch : FetchOutcome)
    (msg : QueueMessage) (rendered : Option RenderedTemplate)
    (pn : String) (outcomes : Nat → SendAttemptOutcome) (ma : Nat) (db : DeliveryDb)
    (hmiss : cacheStore.find? (fun e => e.1 == prefCacheKey userId) = none)
    (hopen : breaker.state = CBState.opened)
    (hwin : shouldAttemptReset breaker now = false) :
    get_user_preferences userId cacheStore breaker now fetch =
      { result := some { emailEnabled := true, pushEnabled := true, email := none },
        breaker := breaker, cache := cacheStore, httpCalls := 0 }
    ∧ process_email_notification msg
        (get_user_preferences userId cacheStore breaker now fetch).result
        rendered pn outcomes ma now db =
      { ok := false, db := db,
        gateway := [updateGatewayStatus msg.notificationId "failed" none
          (some "User email address not found")] } := by
  have h1 : get_user_preferences userId cacheStore breaker now fetch =
      { result := some { emailEnabled := true, pushEnabled := true, email := none },
        breaker := breaker, cache := cacheStore, httpCalls := 0 } := by
    unfold get_user_preferences
    simp only [hmiss]
    rw [if_pos]
    exact ⟨hopen, by simp [hwin]⟩
  refine ⟨h1, ?_⟩
  rw [h1]
  simp [process_email_notification, optTruthy]

/-- Witness for C7: user 6, empty cache, breaker open at 100, lookup at
130: the default snapshot is returned and the pipeline reports `failed`. -/
theorem breaker_open_default_prefs_witness :
    get_user_preferences 6 [] openBreaker 130 FetchOutcome.httpError =
      { result := some { emailEnabled := true, pushEnabled := true, email := none },
        breaker := openBreaker, cache := [], httpCalls := 0 }
    ∧ process_email_notification msgHappy
        (get_user_preferences 6 [] openBreaker 130 FetchOutcome.httpError).result
        (some rendHappy) "smtp" (fun _ => SendAttemptOutcome.success "M") 3 130 [] =
      { ok := false, db := [],
        gateway := [updateGatewayStatus msgHappy.notificationId "failed" none
          (some "User email address not found")] } :=
  breaker_open_default_prefs 6 [] openBreaker 130 FetchOutcome.httpError msgHappy
    (some rendHappy) "smtp" (fun _ => SendAttemptOutcome.success "M") 3 []
    rfl rfl (by decide)

/-- Helper: a row whose id does not match passes through
`update_status` unchanged. -/
theorem mem_update_status_of_ne (db : DeliveryDb) (did : Nat) (s : String)
    (em ec pm : Option String) (now : Nat) (r₀ : DeliveryRow)
    (hmem : r₀ ∈ db) (hne : ¬ r₀.id = did) :
    r₀ ∈ (update_status db did s em ec pm now).1 :=
  List.mem_map.mpr ⟨r₀, hmem, by simp [hne]⟩

/-- Helper: a row whose id matches is replaced by the updated row. -/
theorem mem_update_status_of_eq (db : DeliveryDb) (did : Nat) (s : String)
    (em ec pm : Option String) (now : Nat) (r₀ : DeliveryRow)
    (hmem : r₀ ∈ db) (heq : r₀.id = did) :
    updateRowValues s em ec pm now r₀ ∈ (update_status db did s em ec pm now).1 :=
  List.mem_map.mpr ⟨r₀, hmem, by simp [heq]⟩

/-- C2 counterexample: the claim says a webhook event naming an
already-terminal row, or an event name outside the mapping table, never
changes that row's status.  On the code, the row `rowDelivered` is in the
terminal status `delivered`, yet the webhook event `unknown_event` (not in
the table) maps to the default `"pending"` and is applied unconditionally:
the row leaves its terminal status with no manual reset. -/
theorem webhook_moves_terminal_row :
    rowDelivered.status = "delivered"
    ∧ (handle_webhook [rowDelivered] "M5" "unknown_event" 50).1 = true
    ∧ ((handle_webhook [rowDelivered] "M5" "unknown_event" 50).2.1.map
        (fun r => r.status)) = ["pending"] := by decide

/-- C2 amended: `handle_webhook` maps `delivered`/`bounce`/`dropped`/
`deferred` per the table and every other event name to `pending`, then
applies `update_status` unconditionally — no transition is validated, so
any row found by `provider_message_id`, terminal or not, is set to the
mapped status, and the gateway is PATCHed with it. -/
theorem handle_webhook_unconditional (db : DeliveryDb) (pmid event : String) (now : Nat)
    (r : DeliveryRow)
    (h : get_by_provider_message_id db pmid = some r) :
    (webhookEventStatus "delivered" = "delivered"
      ∧ webhookEventStatus "bounce" = "bounced"
      ∧ webhookEventStatus "dropped" = "failed"
      ∧ webhookEventStatus "deferred" = "pending")
    ∧ (¬ event = "delivered" → ¬ event = "bounce" → ¬ event = "dropped" →
        ¬ event = "deferred" → webhookEventStatus event = "pending")
    ∧ (handle_webhook db pmid event now).1 = true
    ∧ (∀ r₀, (updateRowValues (webhookEventStatus event) none none none now r₀).status
        = webhookEventStatus event)
    ∧ (∀ r₀ ∈ db, r₀.id = r.id →
        updateRowValues (webhookEventStatus event) none none none now r₀
          ∈ (handle_webhook db pmid event now).2.1)
    ∧ (∀ r₀ ∈ db, ¬ r₀.id = r.id → r₀ ∈ (handle_webhook db pmid event now).2.1)
    ∧ (handle_webhook db pmid event now).2.2 =
        [updateGatewayStatus r.notificationId (webhookEventStatus event) (some pmid) none] := by
  have hw : handle_webhook db pmid event now =
      (true, (update_status db r.id (webhookEventStatus event) none none none now).1,
       [updateGatewayStatus r.notificationId (webhookEventStatus event) (some pmid) none]) := by
    unfold handle_webhook
    rw [h]
  refine ⟨⟨rfl, rfl, rfl, rfl⟩, ?_, ?_, ?_, ?_, ?_, ?_⟩
  · intro h1 h2 h3 h4
    simp [webhookEventStatus, h1, h2, h3, h4]
  · rw [hw]
  · intro r₀
    rfl
  · intro r₀ hmem heq
    rw [hw]
    exact mem_update_status_of_eq db r.id (webhookEventStatus event) none none none now r₀
      hmem heq
  · intro r₀ hmem hne
    rw [hw]
    exact mem_update_status_of_ne db r.id (webhookEventStatus event) none none none now r₀
      hmem hne
  · rw [hw]

/-- Witness for C2 amended: the `deferred` event moves the concrete
`delivered` row back to `pending`. -/
theorem handle_webhook_unconditional_witness :
    (handle_webhook [rowDelivered] "M5" "deferred" 50).1 = true
    ∧ updateRowValues (webhookEventStatus "deferred") none none none 50 rowDelivered
        ∈ (handle_webhook [rowDelivered] "M5" "deferred" 50).2.1 :=
  ⟨(handle_webhook_unconditional [rowDelivered] "M5" "deferred" 50 rowDelivered
      (by decide)).2.2.1,
   (handle_webhook_unconditional [rowDelivered] "M5" "deferred" 50 rowDelivered
      (by decide)).2.2.2.2.1 rowDelivered (by decide) rfl⟩

/-- Helper: mapping a `notification_id`-preserving function over the table
leaves the per-notification row count unchanged. -/
theorem countByNotification_map (n : Nat) (db : DeliveryDb) (f : DeliveryRow → DeliveryRow)
    (hf : ∀ r, (f r).notificationId = r.notificationId) :
    countByNotification n (db.map f) = countByNotification n db := by
  unfold countByNotification
  rw [← List.countP_eq_length_filter, ← List.countP_eq_length_filter, List.countP_map]
  congr 1
  funext r
  simp [Function.comp, hf r]

/-- Helper: `update_status` never changes the per-notification row count. -/
theorem countByNotification_update_status (n : Nat) (db : DeliveryDb) (did : Nat)
    (s : String) (em ec pm : Option String) (now : Nat) :
    countByNotification n (update_status db did s em ec pm now).1 = countByNotification n db :=
  countByNotification_map n db _ (fun r => by
    by_cases h : r.id == did <;> simp [h, updateRowValues])

/-- Helper: `increment_attempt` never changes the per-notification row
count. -/
theorem countByNotification_increment (n : Nat) (db : DeliveryDb) (did now : Nat) :
    countByNotification n (increment_attempt db did now).1 = countByNotification n db :=
  countByNotification_map n db _ (fun r => by
    by_cases h : r.id == did <;> simp [h])

/-- Helper: the whole retried send step never inserts or removes rows. -/
theorem countByNotification_sendAttempts (n : Nat) (outcomes : Nat → SendAttemptOutcome)
    (did now : Nat) : ∀ (fuel ix : Nat) (db : DeliveryDb),
    countByNotification n (sendAttempts outcomes did now ix fuel db).db
      = countByNotification n db := by
  intro fuel
  induction fuel with
  | zero => intro ix db; rfl
  | succ f ih =>
    intro ix db
    unfold sendAttempts
    cases houtcome : outcomes ix with
    | success mid =>
      simp [houtcome, countByNotification_update_status, countByNotification_increment]
    | providerError err =>
      simp [houtcome, ih, countByNotification_update_status, countByNotification_increment]
    | breakerOpen =>
      simp [houtcome, countByNotification_update_status, countByNotification_increment]

/-- Helper: `sendEmailWithRetry` never inserts or removes rows. -/
theorem countByNotification_sendEmailWithRetry (n : Nat)
    (outcomes : Nat → SendAttemptOutcome) (did now ma : Nat) (db : DeliveryDb) :
    countByNotification n (sendEmailWithRetry outcomes did now ma db).db
      = countByNotification n db :=
  countByNotification_sendAttempts n outcomes did now ma 0 db

/-- Helper: appending one row bumps the count of its notification by one. -/
theorem countByNotification_append_single (n : Nat) (db : DeliveryDb) (r : DeliveryRow)
    (hr : r.notificationId = n) :
    countByNotification n (db ++ [r]) = countByNotification n db + 1 := by
  unfold countByNotification
  simp [List.filter_append, List.filter_cons, hr]

/-- Helper: one happy-path run of the pipeline (preferences present, email
enabled, address present, template rendered) inserts exactly one new row
for the job's notification id. -/
theorem process_adds_one_row (msg : QueueMessage) (prefs : UserPreferences)
    (rend : RenderedTemplate) (pn : String) (outcomes : Nat → SendAttemptOutcome)
    (ma now : Nat) (db : DeliveryDb) (n : Nat)
    (hn : msg.notificationId = n)
    (hen : prefs.emailEnabled = true)
    (haddr : optTruthy prefs.email = true) :
    countByNotification n
        (process_email_notification msg (some prefs) (some rend) pn outcomes ma now db).db
      = countByNotification n db + 1 := by
  unfold process_email_notification
  simp only [hen, haddr, Bool.not_true, Bool.false_eq_true, if_false]
  have hcreate : countByNotification n (create db (newDeliveryRow msg prefs rend pn now)).2
      = countByNotification n db + 1 := by
    unfold create
    exact countByNotification_append_single n db _ hn
  cases houtcome :
      (sendEmailWithRetry outcomes (create db (newDeliveryRow msg prefs rend pn now)).1.id now
        ma (create db (newDeliveryRow msg prefs rend pn now)).2).outcome with
  | returned b =>
    simp only [houtcome]
    rw [countByNotification_sendEmailWithRetry, hcreate]
  | retryError =>
    simp only [houtcome]
    rw [countByNotification_sendEmailWithRetry, hcreate]

/-- C1 counterexample: the claim says a DeliveryJob delivered `k` times
still leaves exactly one row per `(notification_id, channel)`.  On the
code, `EmailDeliveryRepository.create` inserts unconditionally, so the
happy-path job delivered twice leaves two rows for notification 1. -/
theorem duplicate_delivery_two_rows :
    countByNotification 1
      (iteratePipeline msgHappy (some prefsWithAddr) (some rendHappy) "smtp"
        (fun _ => SendAttemptOutcome.success "M1") 3 7 2 []) = 2 := by decide

/-- C1 amended: `create` is an unconditional INSERT (no lookup of an
existing `(notification_id, channel)` row, no idempotent no-op), so a
DeliveryJob delivered `k` times under the same responses leaves exactly
`k` rows for `(notification_id, channel)` — each run creates and then
updates only its own fresh row. -/
theorem delivery_rows_accumulate (msg : QueueMessage) (prefs : UserPreferences)
    (rend : RenderedTemplate) (pn : String) (outcomes : Nat → SendAttemptOutcome)
    (ma now : Nat) (n : Nat)
    (hn : msg.notificationId = n)
    (hen : prefs.emailEnabled = true)
    (haddr : optTruthy prefs.email = true) :
    ∀ (k : Nat) (db : DeliveryDb),
    countByNotification n
        (iteratePipeline msg (some prefs) (some rend) pn outcomes ma now k db)
      = countByNotification n db + k := by
  intro k
  induction k with
  | zero => intro db; rfl
  | succ k ih =>
    intro db
    unfold iteratePipeline
    rw [ih, process_adds_one_row msg prefs rend pn outcomes ma now db n hn hen haddr]
    omega

/-- Witness for C1 amended: three deliveries of the happy-path job starting
from the empty table leave three rows for notification 1. -/
theorem delivery_rows_accumulate_witness :
    countByNotification 1
      (iteratePipeline msgHappy (some prefsWithAddr) (some rendHappy) "smtp"
        (fun _ => SendAttemptOutcome.success "M1") 3 7 3 [])
      = countByNotification 1 [] + 3 :=
  delivery_rows_accumulate msgHappy prefsWithAddr rendHappy "smtp"
    (fun _ => SendAttemptOutcome.success "M1") 3 7 1 rfl rfl (by decide) 3 []

/-- C3 counterexample: the claim says a job whose user has the channel
enabled but no address leaves a DeliveryRecord with `failed` and
`error_code=NO_ADDRESS` and the message is acknowledged.  On the code, the
missing-address branch creates no row at all (the database stays empty, so
no `error_code` exists anywhere), only PATCHes the gateway with `failed`,
and returns `False` — which makes the consumer reject the message instead
of acknowledging it. -/
theorem missing_address_no_record :
    process_email_notification msgHappy (some prefsNoAddr) (some rendPlain) "smtp"
        (fun _ => SendAttemptOutcome.success "M") 3 9 [] =
      { ok := false, db := [],
        gateway := [{ notificationId := 1, status := "failed", providerMessageId := none,
                      errorMessage := some "User email address not found" }] }
    ∧ process_message (MessageBody.valid msgHappy) (fun _ => false)
        = BrokerAction.reject false := by decide

/-- C3 amended: when preferences have email enabled but a falsy address,
the orchestrator creates no DeliveryRecord and records no error code — it
PATCHes the gateway with `failed` (error message "User email address not
found") and returns failure, so the consumer rejects the message
(dead-lettering it) rather than acknowledging it. -/
theorem missing_address_behavior (msg : QueueMessage) (prefs : UserPreferences)
    (rendered : Option RenderedTemplate) (pn : String)
    (outcomes : Nat → SendAttemptOutcome) (ma now : Nat) (db : DeliveryDb)
    (hen : prefs.emailEnabled = true)
    (haddr : optTruthy prefs.email = false) :
    process_email_notification msg (some prefs) rendered pn outcomes ma now db =
      { ok := false, db := db,
        gateway := [updateGatewayStatus msg.notificationId "failed" none
          (some "User email address not found")] }
    ∧ (∀ handlerOk : QueueMessage → Bool, handlerOk msg = false →
        process_message (MessageBody.valid msg) handlerOk = BrokerAction.reject false) := by
  constructor
  · unfold process_email_notification
    simp [hen, haddr]
  · intro handlerOk hh
    simp [process_message, hh]

/-- Witness for C3 amended: the concrete no-address job over a non-empty
table leaves the table unchanged, reports `failed`, and is rejected. -/
theorem missing_address_behavior_witness :
    process_email_notification msgHappy (some prefsNoAddr) (some rendPlain) "smtp"
        (fun _ => SendAttemptOutcome.providerError "boom") 3 9 [rowDelivered] =
      { ok := false, db := [rowDelivered],
        gateway := [updateGatewayStatus msgHappy.notificationId "failed" none
          (some "User email address not found")] }
    ∧ process_message (MessageBody.valid msgHappy) (fun _ => false)
        = BrokerAction.reject false :=
  ⟨(missing_address_behavior msgHappy prefsNoAddr (some rendPlain) "smtp"
      (fun _ => SendAttemptOutcome.providerError "boom") 3 9 [rowDelivered] rfl rfl).1,
   (missing_address_behavior msgHappy prefsNoAddr (some rendPlain) "smtp"
      (fun _ => SendAttemptOutcome.providerError "boom") 3 9 [rowDelivered] rfl rfl).2
     (fun _ => false) rfl⟩

/-- Helper: the processed count of the webhook loop never exceeds the
number of events. -/
theorem foldl_webhookBatchStep_le (now : Nat) :
    ∀ (events : List WebhookEvent) (db : DeliveryDb) (c : Nat),
    (events.foldl (webhookBatchStep now) (c, db)).1 ≤ c + events.length := by
  intro events
  induction events with
  | nil => intro db c; simp
  | cons e es ih =>
    intro db c
    rw [List.foldl_cons]
    have heta : webhookBatchStep now (c, db) e
        = ((webhookBatchStep now (c, db) e).1, (webhookBatchStep now (c, db) e).2) := rfl
    rw [heta]
    have h1 := ih (webhookBatchStep now (c, db) e).2 (webhookBatchStep now (c, db) e).1
    have h2 : (webhookBatchStep now (c, db) e).1 ≤ c + 1 := by
      unfold webhookBatchStep
      by_cases hb : (handle_webhook db e.sgMessageId e.event now).1 <;> simp [hb]
    simp only [List.length_cons]
    exact le_trans h1 (by omega)

/-- C4 counterexample: the claim says the webhook endpoint's body carries
numeric counters with `received` = batch size and `processed` = events
applied, so the empty batch yields `{received: 0, processed: 0}`.  On the
code, `WebhookResponse.received` and `.processed` are booleans: the empty
batch yields `received=true, processed=true`, and a one-event batch with
zero applied events yields `received=true, processed=false` — no field
carries a count (the counts appear only inside the message string). -/
theorem webhook_response_not_counters :
    (email_webhook [] [] 0).1 = 200
    ∧ (email_webhook [] [] 0).2.1 =
        { received := true, processed := true, message := "Processed 0 out of 0 events" }
    ∧ (email_webhook [evStray] [] 0).2.1.received = true
    ∧ (email_webhook [evStray] [] 0).2.1.processed = false := by decide

/-- C4 amended: for every batch the endpoint returns HTTP 200 even when
individual events fail; the body's `received` is the literal boolean
`true`, `processed` is the boolean "every event of the batch was applied"
(the counts themselves appear only in the `message` string), and the
number of applied events never exceeds the batch size; the empty batch
yields `{received: true, processed: true}`. -/
theorem webhook_response_shape (events : List WebhookEvent) (db : DeliveryDb) (now : Nat) :
    (email_webhook events db now).1 = 200
    ∧ (email_webhook events db now).2.1.received = true
    ∧ ((email_webhook events db now).2.1.processed
        = ((webhookBatchRun events db now).1 == events.length))
    ∧ (webhookBatchRun events db now).1 ≤ events.length
    ∧ (email_webhook [] db now).2.1 =
        { received := true, processed := true, message := "Processed 0 out of 0 events" } := by
  refine ⟨rfl, rfl, rfl, ?_, ?_⟩
  · have h := foldl_webhookBatchStep_le now events db 0
    unfold webhookBatchRun
    omega
  · have hs : ("Processed " ++ toString (0 : Nat) ++ " out of " ++ toString (0 : Nat)
        ++ " events") = "Processed 0 out of 0 events" := by decide
    show WebhookResponse.mk true ((0 : Nat) == 0)
        ("Processed " ++ toString (0 : Nat) ++ " out of " ++ toString (0 : Nat) ++ " events")
      = WebhookResponse.mk true true "Processed 0 out of 0 events"
    rw [hs]
    rfl

/-- Helper: the send step makes at most `fuel` provider calls and at most
`fuel` persisted increments, and never calls the provider more often than
it increments. -/
theorem sendAttempts_bounds (outcomes : Nat → SendAttemptOutcome) (did now : Nat) :
    ∀ (fuel ix : Nat) (db : DeliveryDb),
    (sendAttempts outcomes did now ix fuel db).providerCalls ≤ fuel
    ∧ (sendAttempts outcomes did now ix fuel db).increments ≤ fuel
    ∧ (sendAttempts outcomes did now ix fuel db).providerCalls
        ≤ (sendAttempts outcomes did now ix fuel db).increments := by
  intro fuel
  induction fuel with
  | zero =>
    intro ix db
    exact ⟨Nat.le_refl 0, Nat.le_refl 0, Nat.le_refl 0⟩
  | succ f ih =>
    intro ix db
    unfold sendAttempts
    cases h : outcomes ix with
    | breakerOpen => simp [h]
    | success mid => simp [h]
    | providerError e =>
      have hrec := ih (ix + 1)
        ((update_status (increment_attempt db did now).1 did "failed" (some e) none none now).1)
      simp only [h]
      simp
      omega

/-- Helper: when every attempt fails with a provider error (of any kind),
the send step uses all `fuel` attempts and ends in `RetryError`. -/
theorem sendAttempts_all_fail (outcomes : Nat → SendAttemptOutcome) (did now : Nat) :
    ∀ (fuel ix : Nat) (db : DeliveryDb),
    (∀ i, i < fuel → ∃ e, outcomes (ix + i) = SendAttemptOutcome.providerError e) →
    (sendAttempts outcomes did now ix fuel db).providerCalls = fuel
    ∧ (sendAttempts outcomes did now ix fuel db).outcome = RetryOutcome.retryError
    ∧ (sendAttempts outcomes did now ix fuel db).increments = fuel := by
  intro fuel
  induction fuel with
  | zero =>
    intro ix db _
    exact ⟨rfl, rfl, rfl⟩
  | succ f ih =>
    intro ix db h
    obtain ⟨e, he⟩ := h 0 (Nat.succ_pos f)
    rw [Nat.add_zero] at he
    have hrec := ih (ix + 1)
      ((update_status (increment_attempt db did now).1 did "failed" (some e) none none now).1)
      (fun i hi => by
        have hx := h (i + 1) (by omega)
        rwa [show ix + (i + 1) = ix + 1 + i by omega] at hx)
    unfold sendAttempts
    simp only [he]
    refine ⟨?_, ?_, ?_⟩ <;> simp [hrec.1, hrec.2.1, hrec.2.2] <;> omega

/-- Helper: on a single-row table holding the delivery's row, the send
step leaves a single row with the same id whose `attempt_count` has grown
by exactly the number of persisted increments. -/
theorem sendAttempts_attemptCount_single (outcomes : Nat → SendAttemptOutcome)
    (did now : Nat) :
    ∀ (fuel ix : Nat) (r : DeliveryRow), r.id = did →
    ∃ r', (sendAttempts outcomes did now ix fuel [r]).db = [r']
      ∧ r'.id = did
      ∧ r'.attemptCount
          = r.attemptCount + (sendAttempts outcomes did now ix fuel [r]).increments := by
  intro fuel
  induction fuel with
  | zero =>
    intro ix r hid
    exact ⟨r, rfl, hid, rfl⟩
  | succ f ih =>
    intro ix r hid
    have hbeq : (r.id == did) = true := by simp [hid]
    have h1 : (increment_attempt [r] did now).1
        = [{ r with attemptCount := r.attemptCount + 1, updatedAt := now }] := by
      simp [increment_attempt, hid]
    unfold sendAttempts
    rw [h1]
    cases h : outcomes ix with
    | breakerOpen =>
      have h2 : (update_status [{ r with attemptCount := r.attemptCount + 1, updatedAt := now }]
          did "failed" (some "Email provider unavailable (circuit breaker open)") none none now).1
          = [updateRowValues "failed" (some "Email provider unavailable (circuit breaker open)")
              none none now { r with attemptCount := r.attemptCount + 1, updatedAt := now }] := by
        simp [update_status, hid]
      simp only [h2]
      exact ⟨_, rfl, hid, rfl⟩
    | success mid =>
      have h2 : (update_status [{ r with attemptCount := r.attemptCount + 1, updatedAt := now }]
          did "sent" none none (some mid) now).1
          = [updateRowValues "sent" none none (some mid) now
              { r with attemptCount := r.attemptCount + 1, updatedAt := now }] := by
        simp [update_status, hid]
      simp only [h2]
      exact ⟨_, rfl, hid, rfl⟩
    | providerError e =>
      have h2 : (update_status [{ r with attemptCount := r.attemptCount + 1, updatedAt := now }]
          did "failed" (some e) none none now).1
          = [updateRowValues "failed" (some e) none none now
              { r with attemptCount := r.attemptCount + 1, updatedAt := now }] := by
        simp [update_status, hid]
      simp only [h2]
      obtain ⟨r', hdb, hid', hatt⟩ := ih (ix + 1)
        (updateRowValues "failed" (some e) none none now
          { r with attemptCount := r.attemptCount + 1, updatedAt := now }) hid
      refine ⟨r', ?_, hid', ?_⟩
      · simpa using hdb
      · rw [hatt]
        have hred : (updateRowValues "failed" (some e) none none now
            { r with attemptCount := r.attemptCount + 1, updatedAt := now }).attemptCount
            = r.attemptCount + 1 := rfl
        rw [hred]
        omega

/-- C5 counterexample: the claim says retries never apply to permanent
provider errors such as an HTTP 400 / malformed-recipient failure.  On the
code the tenacity decorator has no `retry=` predicate and the provider
normalizes 4xx into an unsuccessful `SendResult`, which
`_send_email_with_retry` re-raises as a generic exception — so a permanent
400 error is retried like any other: with `max_attempts = 3` the provider
is called three times before `RetryError`. -/
theorem permanent_error_retried :
    (sendEmailWithRetry
        (fun _ => SendAttemptOutcome.providerError "SendGrid API error: 400 - invalid recipient")
        1 4 3 [rowPending]).providerCalls = 3
    ∧ (sendEmailWithRetry
        (fun _ => SendAttemptOutcome.providerError "SendGrid API error: 400 - invalid recipient")
        1 4 3 [rowPending]).outcome = RetryOutcome.retryError := by decide

/-- C5 amended: the retry wraps only the send step and makes at most
`max_attempts` (config default 3) attempts; before each provider call the
delivery's `attempt_count` is incremented and persisted (the row ends with
one increment per attempt); but retries apply to *every* failed send
attempt regardless of error kind — permanent provider errors (HTTP 4xx,
malformed recipient) included, since providers normalize all failures into
unsuccessful results that are re-raised generically; only a success or a
circuit-breaker-open stops the attempts early, the latter without any
provider call. -/
theorem send_retry_behavior (outcomes : Nat → SendAttemptOutcome) (did now ma : Nat)
    (db : DeliveryDb) (r : DeliveryRow)
    (hid : r.id = did) (hma : 0 < ma) :
    MAX_RETRY_ATTEMPTS = 3
    ∧ (sendEmailWithRetry outcomes did now ma db).providerCalls ≤ ma
    ∧ (sendEmailWithRetry outcomes did now ma db).increments ≤ ma
    ∧ (sendEmailWithRetry outcomes did now ma db).providerCalls
        ≤ (sendEmailWithRetry outcomes did now ma db).increments
    ∧ (∃ r', (sendEmailWithRetry outcomes did now ma [r]).db = [r'] ∧ r'.id = did
        ∧ r'.attemptCount
            = r.attemptCount + (sendEmailWithRetry outcomes did now ma [r]).increments)
    ∧ ((∀ i, i < ma → ∃ e, outcomes i = SendAttemptOutcome.providerError e) →
        (sendEmailWithRetry outcomes did now ma db).providerCalls = ma
        ∧ (sendEmailWithRetry outcomes did now ma db).outcome = RetryOutcome.retryError)
    ∧ (outcomes 0 = SendAttemptOutcome.breakerOpen →
        (sendEmailWithRetry outcomes did now ma db).providerCalls = 0
        ∧ (sendEmailWithRetry outcomes did now ma db).increments = 1
        ∧ (sendEmailWithRetry outcomes did now ma db).outcome = RetryOutcome.returned false)
    ∧ (∀ mid, outcomes 0 = SendAttemptOutcome.success mid →
        (sendEmailWithRetry outcomes did now ma db).providerCalls = 1
        ∧ (sendEmailWithRetry outcomes did now ma db).outcome = RetryOutcome.returned true) := by
  obtain ⟨m, rfl⟩ : ∃ m, ma = m + 1 := ⟨ma - 1, by omega⟩
  have hb := sendAttempts_bounds outcomes did now (m + 1) 0 db
  refine ⟨rfl, hb.1, hb.2.1, hb.2.2, ?_, ?_, ?_, ?_⟩
  · exact sendAttempts_attemptCount_single outcomes did now (m + 1) 0 r hid
  · intro h
    have := sendAttempts_all_fail outcomes did now (m + 1) 0 db
      (fun i hi => by simpa using h i hi)
    exact ⟨this.1, this.2.1⟩
  · intro h
    unfold sendEmailWithRetry sendAttempts
    simp [h]
  · intro mid h
    unfold sendEmailWithRetry sendAttempts
    simp [h]

/-- Witness for C5 amended: with the breaker open on the first attempt the
concrete send step makes no provider call, persists one increment, and
returns failure. -/
theorem send_retry_behavior_witness :
    (sendEmailWithRetry (fun _ => SendAttemptOutcome.breakerOpen) 1 4 3
        [rowPending]).providerCalls = 0
    ∧ (sendEmailWithRetry (fun _ => SendAttemptOutcome.breakerOpen) 1 4 3
        [rowPending]).outcome = RetryOutcome.returned false :=
  ⟨((send_retry_behavior (fun _ => SendAttemptOutcome.breakerOpen) 1 4 3 [rowPending]
      rowPending rfl (by decide)).2.2.2.2.2.2.1 rfl).1,
   ((send_retry_behavior (fun _ => SendAttemptOutcome.breakerOpen) 1 4 3 [rowPending]
      rowPending rfl (by decide)).2.2.2.2.2.2.1 rfl).2.2⟩

/-- C8: evaluation of the consumer's per-message protocol.  The decode
half of the claim holds: a JSON decode failure is swallowed, the message
is acknowledged and dropped.  The requeue half does not: a handler result
of transient failure raises inside `message.process()`, which was entered
with no arguments, so aio-pika rejects with its default `requeue=False` —
the message is dead-lettered, not redelivered — although the adjacent
comment in `_process_message` says "Reject and requeue for retry". -/
theorem consumer_message_protocol :
    process_message MessageBody.invalidJson (fun _ => true) = BrokerAction.ack
    ∧ process_message (MessageBody.valid msgHappy) (fun _ => false)
        = BrokerAction.reject false
    ∧ ¬ process_message (MessageBody.valid msgHappy) (fun _ => false)
        = BrokerAction.reject true := by decide

end EmailService
